import Mathlib

/- Formal model of `src/window.win32.cpp` from the saucer repository: the
win32 backend of the cross-platform window façade.  Native 32-bit style
words are embedded as `Nat` bitmasks, the thread-marshalling discipline as
explicit caller/owner thread data, and the cached window attributes as an
explicit record.  Definitions translate the source; theorems settle the
specification's claims about it. -/

namespace Saucer

/- Win32 window-style bit constants, as defined by `<winuser.h>` and used by
the source. -/

def WS_THICKFRAME : Nat := 0x00040000

def WS_MINIMIZEBOX : Nat := 0x00020000

def WS_MAXIMIZEBOX : Nat := 0x00010000

def WS_CAPTION : Nat := 0x00C00000

def WS_SYSMENU : Nat := 0x00080000

def WS_EX_TOPMOST : Nat := 0x00000008

/-- The 32-bit `LONG` word mask: `GetWindowLongW`/`SetWindowLongW` traffic in
32-bit style words, so the C `~flags` complement is taken within 32 bits. -/
def LONG_MASK : Nat := 0xFFFFFFFF

/-- The style bits governing resizability, from `window::resizable` (line 115)
and `window::set_resizable` (line 308): `WS_THICKFRAME | WS_MINIMIZEBOX |
WS_MAXIMIZEBOX`. -/
def resizable_flags : Nat := WS_THICKFRAME ||| WS_MINIMIZEBOX ||| WS_MAXIMIZEBOX

/-- The style bits tested by the getter `window::decorations` (line 125):
`WS_CAPTION | WS_THICKFRAME | WS_MINIMIZEBOX | WS_MAXIMIZEBOX | WS_SYSMENU`. -/
def decorations_read_flags : Nat :=
  WS_CAPTION ||| WS_THICKFRAME ||| WS_MINIMIZEBOX ||| WS_MAXIMIZEBOX ||| WS_SYSMENU

/-- The style bits written by the setter `window::set_decorations` (line 330):
`WS_CAPTION | WS_MINIMIZEBOX | WS_MAXIMIZEBOX | WS_SYSMENU`. -/
def decorations_write_flags : Nat :=
  WS_CAPTION ||| WS_MINIMIZEBOX ||| WS_MAXIMIZEBOX ||| WS_SYSMENU

/-- `window::resizable` (lines 108-116), the native-state read: the C++
`return style & flags;` converts the masked word to `bool`, which is `true`
exactly when the masked word is nonzero. -/
def resizable (style : Nat) : Bool :=
  decide (style &&& resizable_flags ≠ 0)

/-- `window::decorations` (lines 118-127): `return style & flags;`, again the
nonzero test of the masked style word. -/
def decorations (style : Nat) : Bool :=
  decide (style &&& decorations_read_flags ≠ 0)

/-- `window::always_on_top` (lines 129-137): tests `WS_EX_TOPMOST` in the
extended style word. -/
def always_on_top (ex_style : Nat) : Bool :=
  decide (ex_style &&& WS_EX_TOPMOST ≠ 0)

/-- The style transformation performed by `window::set_resizable`
(lines 301-321): read the current style, OR the governing bits in when
enabling, AND them out (via the 32-bit complement) when disabling. -/
def set_resizable_style (enabled : Bool) (current_style : Nat) : Nat :=
  if enabled then
    current_style ||| resizable_flags
  else
    current_style &&& (LONG_MASK ^^^ resizable_flags)

/-- The style transformation performed by `window::set_decorations`
(lines 323-343): same OR-in / AND-out shape, over `decorations_write_flags`. -/
def set_decorations_style (enabled : Bool) (current_style : Nat) : Nat :=
  if enabled then
    current_style ||| decorations_write_flags
  else
    current_style &&& (LONG_MASK ^^^ decorations_write_flags)

/- Bitwise helper lemmas shared by the style theorems. -/

theorem nat_land_lor_left (s a b : Nat) :
    s &&& (a ||| b) = (s &&& a) ||| (s &&& b) := by
  apply Nat.eq_of_testBit_eq
  intro i
  simp [Nat.testBit_land, Nat.testBit_lor, Bool.and_or_distrib_left]

theorem nat_lor_eq_zero {a b : Nat} : a ||| b = 0 ↔ a = 0 ∧ b = 0 := by
  constructor
  · intro h
    constructor <;> apply Nat.eq_of_testBit_eq <;> intro i <;>
      have hb := congrArg (fun n => Nat.testBit n i) h <;>
      simp [Nat.testBit_lor] at hb
    · simp [hb.1]
    · simp [hb.2]
  · rintro ⟨rfl, rfl⟩
    simp

theorem nat_lor_land_self (x f : Nat) : (x ||| f) &&& f = f := by
  apply Nat.eq_of_testBit_eq
  intro i
  simp [Nat.testBit_land, Nat.testBit_lor]
  cases Nat.testBit x i <;> cases Nat.testBit f i <;> simp

theorem nat_lor_land_right (a b c : Nat) :
    (a ||| b) &&& c = (a &&& c) ||| (b &&& c) := by
  apply Nat.eq_of_testBit_eq
  intro i
  simp [Nat.testBit_land, Nat.testBit_lor, Bool.and_or_distrib_right]

theorem nat_land_zero (x : Nat) : x &&& 0 = 0 := by
  apply Nat.eq_of_testBit_eq
  intro i
  simp [Nat.testBit_land]

theorem nat_lor_zero_right (x : Nat) : x ||| 0 = x := by
  apply Nat.eq_of_testBit_eq
  intro i
  simp [Nat.testBit_lor]

/-- C1 counterexample: a style word holding only `WS_THICKFRAME` — a proper,
nonempty subset of the resizable-governing bits — still makes `resizable()`
return `true`, where the claim demands `false`. -/
theorem resizable_true_on_proper_subset :
    resizable WS_THICKFRAME = true
  ∧ WS_THICKFRAME &&& resizable_flags = WS_THICKFRAME
  ∧ WS_THICKFRAME ≠ resizable_flags := by
  decide

/-- C1 (amended): `resizable()` has any-of read semantics, not all-or-nothing:
it returns `true` exactly when at least one of `WS_THICKFRAME`,
`WS_MINIMIZEBOX`, `WS_MAXIMIZEBOX` is present in the style word, because the
C++ `style & flags` converts to `bool` by a nonzero test. -/
theorem resizable_iff_any_bit (s : Nat) :
    resizable s = true ↔
      (s &&& WS_THICKFRAME ≠ 0 ∨ s &&& WS_MINIMIZEBOX ≠ 0 ∨ s &&& WS_MAXIMIZEBOX ≠ 0) := by
  unfold resizable resizable_flags
  rw [decide_eq_true_iff, nat_land_lor_left, nat_land_lor_left]
  rw [Ne, nat_lor_eq_zero, nat_lor_eq_zero]
  tauto

/-- C3 counterexample: the bit set written by `set_decorations` differs from
the bit set tested by `decorations()`: `WS_THICKFRAME` is tested by the getter
but never written by the setter, so `set_decorations(true)` applied to an
all-clear style leaves the tested `WS_THICKFRAME` bit clear. -/
theorem decorations_write_read_mismatch :
    decorations_write_flags ≠ decorations_read_flags
  ∧ decorations_read_flags &&& WS_THICKFRAME = WS_THICKFRAME
  ∧ decorations_write_flags &&& WS_THICKFRAME = 0
  ∧ set_decorations_style true 0 &&& WS_THICKFRAME = 0 := by
  decide

/-- C3 (amended): `set_decorations(true)` ORs in, and `set_decorations(false)`
ANDs out, exactly the four bits `WS_CAPTION | WS_MINIMIZEBOX | WS_MAXIMIZEBOX
| WS_SYSMENU`; it leaves `WS_THICKFRAME` untouched in both directions, and the
set it writes is the set `decorations()` tests minus `WS_THICKFRAME`. -/
theorem set_decorations_effect (s : Nat) :
    set_decorations_style true s &&& decorations_write_flags = decorations_write_flags
  ∧ set_decorations_style false s &&& decorations_write_flags = 0
  ∧ set_decorations_style true s &&& WS_THICKFRAME = s &&& WS_THICKFRAME
  ∧ set_decorations_style false s &&& WS_THICKFRAME = s &&& WS_THICKFRAME
  ∧ decorations_write_flags ||| WS_THICKFRAME = decorations_read_flags := by
  refine ⟨?_, ?_, ?_, ?_, by decide⟩
  · show (s ||| decorations_write_flags) &&& decorations_write_flags = decorations_write_flags
    exact nat_lor_land_self s decorations_write_flags
  · show (s &&& (LONG_MASK ^^^ decorations_write_flags)) &&& decorations_write_flags = 0
    rw [Nat.land_assoc,
      (by decide : (LONG_MASK ^^^ decorations_write_flags) &&& decorations_write_flags = 0),
      nat_land_zero]
  · show (s ||| decorations_write_flags) &&& WS_THICKFRAME = s &&& WS_THICKFRAME
    rw [nat_lor_land_right,
      (by decide : decorations_write_flags &&& WS_THICKFRAME = 0),
      nat_lor_zero_right]
  · show (s &&& (LONG_MASK ^^^ decorations_write_flags)) &&& WS_THICKFRAME = s &&& WS_THICKFRAME
    rw [Nat.land_assoc,
      (by decide : (LONG_MASK ^^^ decorations_write_flags) &&& WS_THICKFRAME = WS_THICKFRAME)]

/-- C6: after `set_resizable(true)` then `set_resizable(false)` every
resizable-governing bit is cleared, and a further `set_resizable(true)` sets
all of them — no matter how the external functions `ext1`, `ext2` rewrite the
style word in between. -/
theorem set_resizable_roundtrip (s : Nat) (ext1 ext2 : Nat → Nat) :
    set_resizable_style false (ext1 (set_resizable_style true s)) &&& resizable_flags = 0
  ∧ set_resizable_style true
      (ext2 (set_resizable_style false (ext1 (set_resizable_style true s))))
      &&& resizable_flags = resizable_flags := by
  constructor
  · show (ext1 (set_resizable_style true s) &&& (LONG_MASK ^^^ resizable_flags))
      &&& resizable_flags = 0
    rw [Nat.land_assoc,
      (by decide : (LONG_MASK ^^^ resizable_flags) &&& resizable_flags = 0),
      nat_land_zero]
  · show (ext2 (set_resizable_style false (ext1 (set_resizable_style true s)))
      ||| resizable_flags) &&& resizable_flags = resizable_flags
    exact nat_lor_land_self _ _

/- `ShowWindow` commands from `<winuser.h>` as used by the source. -/

def SW_MAXIMIZE : Nat := 3

def SW_SHOWMAXIMIZED : Nat := 3

def SW_MINIMIZE : Nat := 6

def SW_RESTORE : Nat := 9

/-- Thread identifiers; the model only compares them for equality. -/
abbrev ThreadId := Nat

/-- Modelled from the spec: `impl::is_thread_safe` (declared in
`window.win32.impl.hpp`, which is outside `src/`) — true iff the calling
thread is the window's creation thread (the spec's `is_owning_thread`). -/
def is_thread_safe (caller creation_thread : ThreadId) : Bool :=
  caller == creation_thread

/-- How one façade operation executed: whether its body ran on the owning
thread, whether it was forwarded through the owning thread's message queue,
and the value it produced. -/
structure Dispatch (α : Type) where
  runs_on_owner : Bool
  queue_hop : Bool
  result : α

/-- Modelled from the spec: `impl::post_safe` (outside `src/`) — enqueues the
closure onto the owning thread's message queue and blocks the caller until
the pump has executed it there, handing back the closure's result. -/
def post_safe (body : α) : Dispatch α :=
  { runs_on_owner := true, queue_hop := true, result := body }

/-- The guard pattern shared by every marshalled operation in the source:
`if (!m_impl->is_thread_safe()) return m_impl->post_safe(...);` followed by
the body executing inline (the caller is then the owning thread). -/
def marshalled_call (caller owner : ThreadId) (body : α) : Dispatch α :=
  if !(is_thread_safe caller owner) then
    post_safe body
  else
    { runs_on_owner := true, queue_hop := false, result := body }

/-- `window::minimized` (lines 83-91): guarded, body reads `IsIconic`. -/
def minimized_dispatch (caller owner : ThreadId) (is_iconic : Bool) : Dispatch Bool :=
  marshalled_call caller owner is_iconic

/-- `window::maximized` (lines 93-106): guarded, body compares the placement
`showCmd` against `SW_SHOWMAXIMIZED`. -/
def maximized_dispatch (caller owner : ThreadId) (show_cmd : Nat) : Dispatch Bool :=
  marshalled_call caller owner (show_cmd == SW_SHOWMAXIMIZED)

/-- `window::resizable` dispatch shape (lines 108-116): guarded. -/
def resizable_dispatch (caller owner : ThreadId) (style : Nat) : Dispatch Bool :=
  marshalled_call caller owner (resizable style)

/-- `window::decorations` dispatch shape (lines 118-127): guarded. -/
def decorations_dispatch (caller owner : ThreadId) (style : Nat) : Dispatch Bool :=
  marshalled_call caller owner (decorations style)

/-- `window::always_on_top` dispatch shape (lines 129-137): guarded. -/
def always_on_top_dispatch (caller owner : ThreadId) (ex_style : Nat) : Dispatch Bool :=
  marshalled_call caller owner (always_on_top ex_style)

/-- `window::set_minimized` (lines 291-294): it has NO thread guard — the
`ShowWindow` call (whose command the result records) is issued directly on
whatever thread invoked it, with no queue hop. -/
def set_minimized_dispatch (caller owner : ThreadId) (enabled : Bool) : Dispatch Nat :=
  { runs_on_owner := is_thread_safe caller owner, queue_hop := false,
    result := if enabled then SW_MINIMIZE else SW_RESTORE }

/-- `window::set_maximized` (lines 296-299): also unguarded. -/
def set_maximized_dispatch (caller owner : ThreadId) (enabled : Bool) : Dispatch Nat :=
  { runs_on_owner := is_thread_safe caller owner, queue_hop := false,
    result := if enabled then SW_MAXIMIZE else SW_RESTORE }

/-- `window::set_resizable` dispatch shape (lines 301-321): guarded; the
result records the style word written back. -/
def set_resizable_dispatch (caller owner : ThreadId) (enabled : Bool) (style : Nat) :
    Dispatch Nat :=
  marshalled_call caller owner (set_resizable_style enabled style)

/-- `window::set_decorations` dispatch shape (lines 323-343): guarded. -/
def set_decorations_dispatch (caller owner : ThreadId) (enabled : Bool) (style : Nat) :
    Dispatch Nat :=
  marshalled_call caller owner (set_decorations_style enabled style)

/-- `window::set_always_on_top` dispatch shape (lines 345-353): guarded; the
result records whether `SetWindowPos` targets `HWND_TOPMOST`. -/
def set_always_on_top_dispatch (caller owner : ThreadId) (enabled : Bool) : Dispatch Bool :=
  marshalled_call caller owner enabled

/-- C2 counterexample: with caller thread 0 and owning thread 1 (distinct),
`set_minimized` and `set_maximized` execute with no queue hop and off the
owning thread — they are not marshalled, contradicting the claim that every
one of the five flag getter/setter pairs is. -/
theorem set_minimized_not_marshalled :
    is_thread_safe 0 1 = false
  ∧ (set_minimized_dispatch 0 1 true).queue_hop = false
  ∧ (set_minimized_dispatch 0 1 true).runs_on_owner = false
  ∧ (set_maximized_dispatch 0 1 true).queue_hop = false
  ∧ (set_maximized_dispatch 0 1 true).runs_on_owner = false := by
  decide

/-- C2 (amended): all five flag getters and the setters `set_resizable`,
`set_decorations`, `set_always_on_top` follow the marshalled pattern — inline
with no queue hop when the caller is the owning thread, forwarded through the
owning thread's queue otherwise, always executing on the owning thread and
producing the same result as direct execution — while `set_minimized` and
`set_maximized` always execute directly on the calling thread with no
marshalling. -/
theorem marshalling_discipline (caller owner : ThreadId) (ic mx : Bool) (cmd s x : Nat)
    (e : Bool) :
    ((minimized_dispatch caller owner ic).runs_on_owner = true
      ∧ (minimized_dispatch caller owner ic).queue_hop = !(is_thread_safe caller owner)
      ∧ (minimized_dispatch caller owner ic).result = ic)
  ∧ ((maximized_dispatch caller owner cmd).runs_on_owner = true
      ∧ (maximized_dispatch caller owner cmd).queue_hop = !(is_thread_safe caller owner)
      ∧ (maximized_dispatch caller owner cmd).result = (cmd == SW_SHOWMAXIMIZED))
  ∧ ((resizable_dispatch caller owner s).runs_on_owner = true
      ∧ (resizable_dispatch caller owner s).queue_hop = !(is_thread_safe caller owner)
      ∧ (resizable_dispatch caller owner s).result = resizable s)
  ∧ ((decorations_dispatch caller owner s).runs_on_owner = true
      ∧ (decorations_dispatch caller owner s).queue_hop = !(is_thread_safe caller owner)
      ∧ (decorations_dispatch caller owner s).result = decorations s)
  ∧ ((always_on_top_dispatch caller owner x).runs_on_owner = true
      ∧ (always_on_top_dispatch caller owner x).queue_hop = !(is_thread_safe caller owner)
      ∧ (always_on_top_dispatch caller owner x).result = always_on_top x)
  ∧ ((set_resizable_dispatch caller owner e s).runs_on_owner = true
      ∧ (set_resizable_dispatch caller owner e s).queue_hop = !(is_thread_safe caller owner)
      ∧ (set_resizable_dispatch caller owner e s).result = set_resizable_style e s)
  ∧ ((set_decorations_dispatch caller owner e s).runs_on_owner = true
      ∧ (set_decorations_dispatch caller owner e s).queue_hop = !(is_thread_safe caller owner)
      ∧ (set_decorations_dispatch caller owner e s).result = set_decorations_style e s)
  ∧ ((set_always_on_top_dispatch caller owner e).runs_on_owner = true
      ∧ (set_always_on_top_dispatch caller owner e).queue_hop = !(is_thread_safe caller owner)
      ∧ (set_always_on_top_dispatch caller owner e).result = e)
  ∧ ((set_minimized_dispatch caller owner mx).queue_hop = false
      ∧ (set_minimized_dispatch caller owner mx).runs_on_owner = is_thread_safe caller owner)
  ∧ ((set_maximized_dispatch caller owner mx).queue_hop = false
      ∧ (set_maximized_dispatch caller owner mx).runs_on_owner = is_thread_safe caller owner) := by
  unfold minimized_dispatch maximized_dispatch resizable_dispatch decorations_dispatch
    always_on_top_dispatch set_resizable_dispatch set_decorations_dispatch
    set_always_on_top_dispatch set_minimized_dispatch set_maximized_dispatch
    marshalled_call post_safe
  cases h : is_thread_safe caller owner <;> simp [h]

/-- Modelled from the spec: `saucer::color` (declared outside `src/`) — an
RGBA 4-channel value, pure data with no invariants beyond channel range. -/
structure color where
  r : Nat
  g : Nat
  b : Nat
  a : Nat
deriving DecidableEq

/-- A native platform call issued by an operation, recorded as trace data. -/
inductive NativeCall where
  | release_capture
  | post_message (msg wparam : Nat)
  | change_background_repaint
deriving DecidableEq

/-- The per-window state the model tracks: the cached fields of `impl`
(`creation_thread`, `background`, `change_background`, `max_size`, `min_size`
— modelled from the spec, since `window.win32.impl.hpp` is outside `src/`)
together with the native state living behind the window handle (style word,
extended style word, client geometry, title text). -/
structure Impl where
  creation_thread : ThreadId
  style : Nat
  ex_style : Nat
  geometry : Int × Int
  title : String
  background : color
  change_background : Bool
  max_size : Option (Int × Int)
  min_size : Option (Int × Int)
deriving DecidableEq

/-- The platform default size bounds queried through `GetSystemMetrics`
(`SM_CXMAXTRACK`, `SM_CYMAXTRACK`, `SM_CXMINTRACK`, `SM_CYMINTRACK`), an
external collaborator passed in as data. -/
structure Metrics where
  cx_maxtrack : Int
  cy_maxtrack : Int
  cx_mintrack : Int
  cy_mintrack : Int
deriving DecidableEq

/-- `window::max_size` body (lines 175-186): the cached override if present,
`value_or` falling back to the platform default maximum track bounds. -/
def max_size (m : Metrics) (st : Impl) : Int × Int :=
  st.max_size.getD (m.cx_maxtrack, m.cy_maxtrack)

/-- `window::min_size` body (lines 188-199): symmetric for the minimum. -/
def min_size (m : Metrics) (st : Impl) : Int × Int :=
  st.min_size.getD (m.cx_mintrack, m.cy_mintrack)

/-- `window::set_max_size` (lines 390-393): a bare assignment to the cached
override field — no thread guard, no native call. -/
def set_max_size (width height : Int) (st : Impl) : Impl × List NativeCall :=
  ({ st with max_size := some (width, height) }, [])

/-- `window::set_min_size` (lines 395-398): likewise for the minimum. -/
def set_min_size (width height : Int) (st : Impl) : Impl × List NativeCall :=
  ({ st with min_size := some (width, height) }, [])

/-- `window::set_max_size` dispatch shape: no `is_thread_safe` guard, so it
runs on the calling thread with no queue hop. -/
def set_max_size_dispatch (caller owner : ThreadId) : Dispatch Unit :=
  { runs_on_owner := is_thread_safe caller owner, queue_hop := false, result := () }

/-- `window::set_min_size` dispatch shape: identical, unguarded. -/
def set_min_size_dispatch (caller owner : ThreadId) : Dispatch Unit :=
  { runs_on_owner := is_thread_safe caller owner, queue_hop := false, result := () }

/-- `window::background` (lines 139-142): a plain read of the cached color
with no thread guard — it runs on the calling thread, never hops the queue. -/
def background_dispatch (caller : ThreadId) (st : Impl) : Dispatch color :=
  { runs_on_owner := is_thread_safe caller st.creation_thread,
    queue_hop := false, result := st.background }

/-- `window::set_background` (lines 365-375): writes the cache first; only
then, and only when the repaint callback is installed, asks the native side
to repaint. -/
def set_background (c : color) (st : Impl) : Impl × List NativeCall :=
  let st2 : Impl := { st with background := c }
  if !st2.change_background then
    (st2, [])
  else
    (st2, [NativeCall.change_background_repaint])

/-- A concrete freshly-constructed window state: no size overrides cached,
no repaint callback installed yet. -/
def impl0 : Impl :=
  { creation_thread := 0, style := 0x00CF0000, ex_style := 0, geometry := (0, 0),
    title := "Saucer Window", background := { r := 0, g := 0, b := 0, a := 0 },
    change_background := false, max_size := none, min_size := none }

/-- C7: once `set_max_size` (resp. `set_min_size`) has cached an override, the
getter returns it verbatim; while no override is cached, the getters return
the platform-queried default track bounds. -/
theorem size_override_semantics (m : Metrics) (st : Impl) (w h w2 h2 : Int)
    (hmax : st.max_size = none) (hmin : st.min_size = none) :
    max_size m (set_max_size w h st).1 = (w, h)
  ∧ min_size m (set_min_size w2 h2 st).1 = (w2, h2)
  ∧ max_size m st = (m.cx_maxtrack, m.cy_maxtrack)
  ∧ min_size m st = (m.cx_mintrack, m.cy_mintrack) := by
  refine ⟨rfl, rfl, ?_, ?_⟩
  · simp [max_size, hmax]
  · simp [min_size, hmin]

/-- C7 witness: the override/default semantics evaluated on a concrete fresh
window and concrete platform metrics. -/
theorem size_override_semantics_witness :
    max_size ⟨3, 4, 1, 2⟩ (set_max_size 100 200 impl0).1 = (100, 200)
  ∧ min_size ⟨3, 4, 1, 2⟩ (set_min_size 5 6 impl0).1 = (5, 6)
  ∧ max_size ⟨3, 4, 1, 2⟩ impl0 = (3, 4)
  ∧ min_size ⟨3, 4, 1, 2⟩ impl0 = (1, 2) :=
  size_override_semantics ⟨3, 4, 1, 2⟩ impl0 100 200 5 6 rfl rfl

/-- C8: `background()` is an unmarshalled plain read of the cache, and after
`set_background c` it returns exactly `c` — including when no repaint
callback is installed, i.e. before the native surface has been told (the
native-call trace is then empty). -/
theorem background_cache_roundtrip (caller : ThreadId) (c : color) (st : Impl) :
    (background_dispatch caller (set_background c st).1).result = c
  ∧ (background_dispatch caller (set_background c st).1).queue_hop = false
  ∧ (background_dispatch caller st).queue_hop = false
  ∧ (set_background c { st with change_background := false }).2 = [] := by
  have h1 : (set_background c st).1 = { st with background := c } := by
    unfold set_background
    dsimp only
    split <;> rfl
  refine ⟨?_, rfl, rfl, rfl⟩
  show (set_background c st).1.background = c
  rw [h1]

/-- C10: `set_max_size`/`set_min_size` write only their cached override field:
every other attribute of the window state is unchanged, the native-call trace
is empty, and neither operation hops to the owning thread's queue. -/
theorem set_size_overrides_pure (caller owner : ThreadId) (w h w2 h2 : Int) (st : Impl) :
    (set_max_size w h st).1.max_size = some (w, h)
  ∧ (set_max_size w h st).1.creation_thread = st.creation_thread
  ∧ (set_max_size w h st).1.style = st.style
  ∧ (set_max_size w h st).1.ex_style = st.ex_style
  ∧ (set_max_size w h st).1.geometry = st.geometry
  ∧ (set_max_size w h st).1.title = st.title
  ∧ (set_max_size w h st).1.background = st.background
  ∧ (set_max_size w h st).1.change_background = st.change_background
  ∧ (set_max_size w h st).1.min_size = st.min_size
  ∧ (set_max_size w h st).2 = []
  ∧ (set_min_size w2 h2 st).1.min_size = some (w2, h2)
  ∧ (set_min_size w2 h2 st).1.max_size = st.max_size
  ∧ (set_min_size w2 h2 st).1.style = st.style
  ∧ (set_min_size w2 h2 st).1.geometry = st.geometry
  ∧ (set_min_size w2 h2 st).1.title = st.title
  ∧ (set_min_size w2 h2 st).1.background = st.background
  ∧ (set_min_size w2 h2 st).2 = []
  ∧ (set_max_size_dispatch caller owner).queue_hop = false
  ∧ (set_min_size_dispatch caller owner).queue_hop = false :=
  ⟨rfl, rfl, rfl, rfl, rfl, rfl, rfl, rfl, rfl, rfl, rfl, rfl, rfl, rfl, rfl, rfl, rfl,
   rfl, rfl⟩

/-- Modelled from the spec: `saucer::window_edge` (declared outside `src/`) —
a combinable bit-flag set over top, bottom, left, right; the `flagpp`
equality used by the source compares whole flag sets. -/
structure window_edge where
  top : Bool
  bottom : Bool
  left : Bool
  right : Bool
deriving DecidableEq

def edge_top : window_edge := ⟨true, false, false, false⟩

def edge_bottom : window_edge := ⟨false, true, false, false⟩

def edge_left : window_edge := ⟨false, false, true, false⟩

def edge_right : window_edge := ⟨false, false, false, true⟩

/-- The `|` union of two edge flag sets. -/
def edge_or (a b : window_edge) : window_edge :=
  ⟨a.top || b.top, a.bottom || b.bottom, a.left || b.left, a.right || b.right⟩

/- `WM_SYSCOMMAND` and the system resize commands, with the values the source
spells out in its comments (`SC_SIZELEFT` ... `SC_SIZEBOTTOMRIGHT`). -/

def WM_SYSCOMMAND : Nat := 0x0112

def SC_SIZELEFT : Nat := 0xf001

def SC_SIZERIGHT : Nat := 0xf002

def SC_SIZETOP : Nat := 0xf003

def SC_SIZETOPLEFT : Nat := 0xf004

def SC_SIZETOPRIGHT : Nat := 0xf005

def SC_SIZEBOTTOM : Nat := 0xf006

def SC_SIZEBOTTOMLEFT : Nat := 0xf007

def SC_SIZEBOTTOMRIGHT : Nat := 0xf008

/-- The `translated` value computed by `window::start_resize` (lines 250-285):
an if-else chain over exact edge-set equality; a combination matching no
branch leaves `translated` at its zero initialisation (`DWORD translated{}`),
and wParam 0 names no system command. -/
def start_resize_translated (edge : window_edge) : Nat :=
  if edge = edge_left then SC_SIZELEFT
  else if edge = edge_right then SC_SIZERIGHT
  else if edge = edge_top then SC_SIZETOP
  else if edge = edge_or edge_top edge_left then SC_SIZETOPLEFT
  else if edge = edge_or edge_top edge_right then SC_SIZETOPRIGHT
  else if edge = edge_bottom then SC_SIZEBOTTOM
  else if edge = edge_or edge_bottom edge_left then SC_SIZEBOTTOMLEFT
  else if edge = edge_or edge_bottom edge_right then SC_SIZEBOTTOMRIGHT
  else 0

/-- The native calls `window::start_resize` issues (lines 287-288): release
the mouse capture, then post `WM_SYSCOMMAND` carrying the translated value. -/
def start_resize (edge : window_edge) : List NativeCall :=
  [NativeCall.release_capture,
   NativeCall.post_message WM_SYSCOMMAND (start_resize_translated edge)]

/-- The eight platform-meaningful edge combinations: four single edges and
four adjacent corner pairs. -/
def valid_edges : List window_edge :=
  [edge_left, edge_right, edge_top, edge_or edge_top edge_left,
   edge_or edge_top edge_right, edge_bottom, edge_or edge_bottom edge_left,
   edge_or edge_bottom edge_right]

/-- The eight system resize commands, in the order matching `valid_edges`. -/
def resize_commands : List Nat :=
  [SC_SIZELEFT, SC_SIZERIGHT, SC_SIZETOP, SC_SIZETOPLEFT, SC_SIZETOPRIGHT,
   SC_SIZEBOTTOM, SC_SIZEBOTTOMLEFT, SC_SIZEBOTTOMRIGHT]

/-- C4: each of the eight valid edge combinations translates to its distinct,
correct system resize command, while the two opposite-pair combinations leave
the translation at 0 — a value that is none of the resize commands, so the
`WM_SYSCOMMAND` posted for them carries no system command (a no-op). -/
theorem start_resize_edge_mapping :
    valid_edges.map start_resize_translated = resize_commands
  ∧ (valid_edges.map start_resize_translated).Nodup
  ∧ start_resize_translated (edge_or edge_top edge_bottom) = 0
  ∧ start_resize_translated (edge_or edge_left edge_right) = 0
  ∧ (0 : Nat) ∉ resize_commands
  ∧ start_resize (edge_or edge_top edge_bottom) =
      [NativeCall.release_capture, NativeCall.post_message WM_SYSCOMMAND 0]
  ∧ start_resize (edge_or edge_left edge_right) =
      [NativeCall.release_capture, NativeCall.post_message WM_SYSCOMMAND 0] := by
  decide

/-- Window lifecycle events, for the process-wide instance counter. -/
inductive WinEvent where
  | construct
  | destruct
deriving DecidableEq

/-- One event's effect on the static counter `impl::instances`: the
constructor runs `impl::instances++` (line 64); the destructor (lines 67-71)
never touches the counter. -/
def instances_step (n : Nat) (e : WinEvent) : Nat :=
  match e with
  | WinEvent.construct => n + 1
  | WinEvent.destruct => n

/-- The value of `impl::instances` after a chronological event trace, the
static starting zero-initialised. -/
def instances_after (tr : List WinEvent) : Nat :=
  tr.foldl instances_step 0

/-- The number of currently live windows after a chronological event trace:
each construction adds one, each destruction removes one. -/
def live_step (n : Nat) (e : WinEvent) : Nat :=
  match e with
  | WinEvent.construct => n + 1
  | WinEvent.destruct => n - 1

def live_windows (tr : List WinEvent) : Nat :=
  tr.foldl live_step 0

/-- C5 counterexample: construct one window, then destroy it — the counter
still reads 1 while zero windows are live, because the destructor does not
decrement. -/
theorem instances_outlives_destruction :
    instances_after [WinEvent.construct, WinEvent.destruct] = 1
  ∧ live_windows [WinEvent.construct, WinEvent.destruct] = 0
  ∧ instances_after [WinEvent.construct, WinEvent.destruct] ≠
      live_windows [WinEvent.construct, WinEvent.destruct] := by
  decide

theorem instances_foldl (tr : List WinEvent) (n : Nat) :
    tr.foldl instances_step n = n + tr.count WinEvent.construct := by
  induction tr generalizing n with
  | nil => simp
  | cons e rest ih =>
    cases e
    · simp [instances_step, ih, List.count_cons]
      omega
    · simp [instances_step, ih, List.count_cons]

/-- C5 (amended): `impl::instances` counts constructions, not live windows:
after any event trace it equals the number of constructions in the trace, and
it is monotone under appending further events — destruction never decrements
it. -/
theorem instances_counts_constructions (tr : List WinEvent) (e : WinEvent) :
    instances_after tr = tr.count WinEvent.construct
  ∧ instances_after tr ≤ instances_after (tr ++ [e]) := by
  constructor
  · simpa using instances_foldl tr 0
  · unfold instances_after
    rw [List.foldl_append]
    cases e <;> simp [instances_step]

/-- `window::window` (lines 18-65), its fallible spine: when the process-wide
class registration has not yet happened and `RegisterClassW` fails, the
constructor throws via `utils::throw_error`; otherwise, when `CreateWindowExW`
returns no handle, it throws; only otherwise does construction complete.
`Except.error` models the raised failure — no constructed window value exists
on an error path. -/
def window_ctor (instance_present register_ok create_ok : Bool) : Except String Unit :=
  if !instance_present && !register_ok then
    Except.error "RegisterClassW() failed"
  else if !create_ok then
    Except.error "CreateWindowExW() failed"
  else
    Except.ok ()

/-- C9: if class registration is attempted and fails, or native handle
creation fails, construction yields a raised failure and never a constructed
window. -/
theorem ctor_failure_raises (instance_present register_ok create_ok : Bool)
    (h : (instance_present = false ∧ register_ok = false) ∨ create_ok = false) :
    window_ctor instance_present register_ok create_ok ≠ Except.ok () := by
  rcases h with ⟨h1, h2⟩ | h3
  · subst h1
    subst h2
    intro hc
    exact Except.noConfusion hc
  · subst h3
    cases instance_present <;> cases register_ok <;> intro hc <;> exact Except.noConfusion hc

/-- C9 witness: a failed registration on the first construction (and,
separately, a failed handle creation) each produce an error, evaluated
concretely. -/
theorem ctor_failure_raises_witness :
    ((false = false ∧ false = false) ∨ true = false)
  ∧ window_ctor false false true ≠ Except.ok () :=
  ⟨Or.inl ⟨rfl, rfl⟩, ctor_failure_raises false false true (Or.inl ⟨rfl, rfl⟩)⟩

end Saucer
